import Mathlib

/-!
Shallow embedding of the do-dynamic-dns-server reconciliation daemon
(src/main.go).  Pure data and control flow are translated directly from the
Go source; external effects (the DigitalOcean API client, the HTTP probe,
go-tld hostname parsing, strings.TrimSpace, net.ParseIP, the system clock)
are passed in as explicit oracle arguments, so every definition stays
executable.  Timestamps and durations are modelled as Nat nanosecond counts
(no arithmetic in the source overflows on the values involved).
-/

/-- net.IP modelled as its byte slice; the nil IP is the empty list. -/
abbrev IP := List Nat

/-- The 12-byte leading bytes of an IPv4-in-IPv6 address (net.v4InV6Prefix). -/
def v4InV6Pre : List Nat := [0, 0, 0, 0, 0, 0, 0, 0, 0, 0, 255, 255]

/-- net.IP.Equal: byte equality for equal lengths, and an IPv4 address is
considered equal to its IPv4-in-IPv6 16-byte form. -/
def ipEqual (a b : IP) : Bool :=
  if a.length = b.length then decide (a = b)
  else if a.length = 4 ∧ b.length = 16 then
    decide (b.take 12 = v4InV6Pre ∧ a = b.drop 12)
  else if a.length = 16 ∧ b.length = 4 then
    decide (a.take 12 = v4InV6Pre ∧ b = a.drop 12)
  else false

/-- net.isZeros. -/
def isZeros (l : List Nat) : Bool := l.all (fun b => b == 0)

/-- net.IP.To4: the 4-byte form of an IPv4 address, or the nil IP. -/
def ipTo4 (ip : IP) : IP :=
  if ip.length == 4 then ip
  else if ip.length == 16 && isZeros (ip.take 10)
      && (ip.getD 10 0 == 255) && (ip.getD 11 0 == 255) then
    ip.drop 12
  else []

/-- Lowercase hexadecimal digit character. -/
def hexDigitChar (n : Nat) : Char :=
  if n < 10 then Char.ofNat (48 + n) else Char.ofNat (87 + n)

/-- One byte as two hexadecimal digits (net.hexString renders each byte so). -/
def byteHex (b : Nat) : String :=
  String.mk [hexDigitChar (b / 16 % 16), hexDigitChar (b % 16)]

/-- net.hexString over a byte slice. -/
def hexStringBytes (l : List Nat) : String :=
  String.join (l.map byteHex)

/-- Hexadecimal digits of n, most significant first, no leading zeros. -/
def hexNoPadAux : Nat → Nat → List Char
  | 0, _ => []
  | _ + 1, 0 => []
  | fuel + 1, n => hexNoPadAux fuel (n / 16) ++ [hexDigitChar (n % 16)]

/-- A 16-bit group in lowercase hex without padding (net appendHex style). -/
def hexNoPad (n : Nat) : String :=
  if n == 0 then "0" else String.mk (hexNoPadAux 8 n)

/-- The eight 16-bit groups of a 16-byte IPv6 address. -/
def groups16 : List Nat → List Nat
  | a :: b :: rest => (a * 256 + b) :: groups16 rest
  | _ => []

/-- Length of the leading run of zero groups. -/
def zeroExtent : List Nat → Nat
  | [] => 0
  | g :: rest => if g == 0 then 1 + zeroExtent rest else 0

/-- Scan for the longest run of zero groups, first-found on ties, matching
the index walk of net.IP.String (indices here count 16-bit groups). -/
def bestZeroRunAux : Nat → List Nat → Nat → Nat × Nat → Nat × Nat
  | 0, _, _, e => e
  | fuel + 1, gs, i, e =>
    if i < gs.length then
      let j := i + zeroExtent (gs.drop i)
      if i < j ∧ e.2 - e.1 < j - i then bestZeroRunAux fuel gs (j + 1) (i, j)
      else bestZeroRunAux fuel gs (i + 1) e
    else e

/-- The zero-group run elided as "::"; none when no run of two or more
groups exists (a single zero group is not shortened). -/
def bestZeroRun (gs : List Nat) : Option (Nat × Nat) :=
  let e := bestZeroRunAux 16 gs 0 (0, 0)
  if e.2 - e.1 ≤ 1 then none else some e

/-- RFC 5952 rendering of the eight groups of an IPv6 address. -/
def ip6Render (gs : List Nat) : String :=
  match bestZeroRun gs with
  | none => String.intercalate ":" (gs.map hexNoPad)
  | some e =>
    String.intercalate ":" ((gs.take e.1).map hexNoPad) ++ "::" ++
      String.intercalate ":" ((gs.drop e.2).map hexNoPad)

/-- net.IP.String: "<nil>" for the nil IP, dotted decimal for IPv4 (also in
its 16-byte form), RFC 5952 text for other 16-byte addresses, and a "?"
hex dump for invalid lengths. -/
def ipString (ip : IP) : String :=
  if ip.length == 0 then "<nil>"
  else if (ipTo4 ip).length == 4 then
    String.intercalate "." ((ipTo4 ip).map (fun b => toString b))
  else if ip.length == 16 then ip6Render (groups16 ip)
  else "?" ++ hexStringBytes ip

/-- strings.TrimPrefix of a single leading dot, as used on record names:
remove the "." prefix when present, otherwise return the string unchanged. -/
def trimDot (s : String) : String :=
  match s.data with
  | '.' :: rest => String.mk rest
  | _ => s

/-- Accumulator walk for strings.Split with separator ",". -/
def splitCommaAux : List Char → List Char → List String
  | [], acc => [String.mk acc.reverse]
  | c :: rest, acc =>
    if c = ',' then String.mk acc.reverse :: splitCommaAux rest []
    else splitCommaAux rest (c :: acc)

/-- strings.Split(s, ","): the comma-separated fields of s.  Like the Go
function with a non-empty separator, the result is never the empty list;
Split("", ",") is the one-element slice holding the empty string. -/
def splitComma (s : String) : List String := splitCommaAux s.data []

/-- godo.DomainRecord restricted to the fields the program reads or writes
(ID, Type, Name, Data). -/
structure DomainRecord where
  id : Nat
  typ : String
  name : String
  data : String
  deriving DecidableEq

/-- Result of tld.Parse for a hostname: its Subdomain, Domain and TLD parts. -/
structure TldResult where
  subdomain : String
  domain : String
  tld : String
  deriving DecidableEq

/-- Outcome of a successful (transport-level) Domains.EditRecord call: the
returned record, the HTTP status, and whether reading the body succeeded. -/
structure EditResp where
  record : DomainRecord
  status : Nat
  bodyReadOk : Bool
  deriving DecidableEq

/-- One EditRecord request as issued by the update pass: the domain it was
addressed to, the record ID targeted, and the Data value of the edit. -/
structure EditCall where
  domain : String
  recordID : Nat
  data : String
  deriving DecidableEq

/-- The outcome of the HTTP GET against the check-ip endpoint, as observed
by CheckIP: request-construction error, transport error, body-read error,
or a response with status code and body. -/
inductive HTTPOutcome where
  | reqErr (msg : String)
  | transportErr (msg : String)
  | readErr (msg : String)
  | response (status : Nat) (body : String)
  deriving DecidableEq

/-- The DDNSUpdater state (fields other than the two external clients). -/
structure UpdaterState where
  recordMap : List (String × DomainRecord)
  interval : Nat
  lastSet : Nat
  nextCheck : Nat
  currentIP : IP
  shutdown : Bool
  complete : Bool
  deriving DecidableEq

/-- Config as loaded from the environment. -/
structure Config where
  doToken : String
  interval : Nat
  domains : List String
  debug : Bool
  deriving DecidableEq

/-- Go map read: first entry with the given key. -/
def mapLookup (m : List (String × DomainRecord)) (k : String) : Option DomainRecord :=
  match m with
  | [] => none
  | p :: rest => if p.1 = k then some p.2 else mapLookup rest k

/-- Go map write: replace the entry with the given key, or append one. -/
def mapUpdate (m : List (String × DomainRecord)) (k : String) (v : DomainRecord) :
    List (String × DomainRecord) :=
  match m with
  | [] => [(k, v)]
  | p :: rest => if p.1 = k then (k, v) :: rest else p :: mapUpdate rest k v

/-- The key set of the map, in entry order. -/
def mapKeys (m : List (String × DomainRecord)) : List String :=
  m.map Prod.fst

/-- The zero godo.DomainRecord a binding holds before synchronization. -/
def zeroRecord : DomainRecord := ⟨0, "", "", ""⟩

/-- NewDDNSUpdater: one zero record per configured domain, nextCheck now. -/
def NewDDNSUpdater (domains : List String) (interval : Nat) (now : Nat) : UpdaterState :=
  { recordMap := domains.foldl (fun m dd => mapUpdate m dd zeroRecord) []
  , interval := interval
  , lastSet := 0
  , nextCheck := now
  , currentIP := []
  , shutdown := false
  , complete := false }

/-- strconv.ParseBool with the error discarded, as in LoadConfigFromEnv
(the false/err result leaves Debug false). -/
def parseBoolGo (s : String) : Bool :=
  s == "1" || s == "t" || s == "T" || s == "TRUE" || s == "true" || s == "True"

/-- LoadConfigFromEnv.  time.ParseDuration is the oracle parseDuration; the
four environment variables are passed as strings ("" when unset, as
os.Getenv yields).  strings.Split never returns an empty slice for a
non-empty separator, so the nil check that follows the append mirrors dead
code of the source. -/
def LoadConfigFromEnv (parseDuration : String → Option Nat)
    (tokenEnv intervalEnv domainsEnv debugEnv : String) : Except String Config :=
  match parseDuration intervalEnv with
  | none => Except.error "unable to parse DDNS_INTERVAL"
  | some interval =>
    let domains : List String := [] ++ splitComma domainsEnv
    if domains = [] then Except.error "DDNS_DOMAINS is required"
    else Except.ok ⟨tokenEnv, interval, domains, parseBoolGo debugEnv⟩

/-- CheckIP over the observed HTTP outcome; trim models strings.TrimSpace.
On success the trimmed body is returned; any status of 400 or more is an
error carrying the body. -/
def CheckIP (trim : String → String) : HTTPOutcome → Except String String
  | .reqErr m => Except.error ("error while forming request: " ++ m)
  | .transportErr m => Except.error ("error while unpacking response: " ++ m)
  | .readErr m => Except.error ("error while reading response body: \"" ++ m ++ "\"")
  | .response s b =>
    if 400 ≤ s then
      Except.error ("error from server (" ++ toString s ++ ") body: \"" ++ b ++ "\"")
    else Except.ok (trim b)

/-- The per-host body of syncRecords: parse the hostname (oracle P models
tld.Parse), build domain and record name, and query the provider (oracle L
models Domains.RecordsByTypeAndName with type "A"); none collapses the
three continue cases of the source (parse error, fetch error, zero
records), some r is records[0]. -/
def syncFetch (P : String → Option TldResult)
    (L : String → String → Option (List DomainRecord)) (name : String) :
    Option DomainRecord :=
  match P name with
  | none => none
  | some t =>
    let domain := t.domain ++ "." ++ t.tld
    let dnsName := trimDot (t.subdomain ++ "." ++ domain)
    match L domain dnsName with
    | none => none
    | some [] => none
    | some (r :: _) => some r

/-- One iteration of the syncRecords loop for the key name. -/
def syncStep (P : String → Option TldResult)
    (L : String → String → Option (List DomainRecord))
    (m : List (String × DomainRecord)) (name : String) :
    List (String × DomainRecord) :=
  match syncFetch P L name with
  | none => m
  | some r => mapUpdate m name r

/-- The binding a host ends with after its own sync step, given its prior
record: unchanged on any per-host failure, records[0] on success. -/
def syncOutcome (P : String → Option TldResult)
    (L : String → String → Option (List DomainRecord))
    (name : String) (rec : DomainRecord) : DomainRecord :=
  match syncFetch P L name with
  | none => rec
  | some r => r

/-- syncRecords: fold the per-host step over the configured keys; the Go
function returns nil unconditionally. -/
def syncRecords (P : String → Option TldResult)
    (L : String → String → Option (List DomainRecord))
    (st : UpdaterState) : UpdaterState × Except String Unit :=
  ({ st with recordMap := (mapKeys st.recordMap).foldl (syncStep P L) st.recordMap }
  , Except.ok ())

/-- The loop of updateRecords over the snapshot of keys, reading the
current map value at each visit (Go range semantics; entries are never
deleted, and keys inserted mid-loop are not re-visited, an admissible Go
iteration).  Each EditRecord request issued is recorded in acc whether or
not it succeeds; oracle E models Domains.EditRecord, with none standing
for a transport error. -/
def updateLoop (P : String → Option TldResult)
    (E : String → Nat → String → Option EditResp) (newStr : String) :
    List String → List (String × DomainRecord) → List EditCall →
    List (String × DomainRecord) × List EditCall
  | [], m, acc => (m, acc)
  | name :: rest, m, acc =>
    match mapLookup m name with
    | none => updateLoop P E newStr rest m acc
    | some record =>
      if record.data = newStr then updateLoop P E newStr rest m acc
      else
        match P name with
        | none => updateLoop P E newStr rest m acc
        | some t =>
          let domain := t.domain ++ "." ++ t.tld
          let acc2 := acc ++ [⟨domain, record.id, newStr⟩]
          match E domain record.id newStr with
          | none => updateLoop P E newStr rest m acc2
          | some resp =>
            if resp.bodyReadOk then
              if 400 ≤ resp.status then updateLoop P E newStr rest m acc2
              else updateLoop P E newStr rest (mapUpdate m domain resp.record) acc2
            else updateLoop P E newStr rest m acc2

/-- updateRecords: set currentIP to the new address, walk every binding
(skipping those whose Data already equals the new address string),
issue edits, store a successful edit's returned record under the domain
key, and stamp lastSet with the tick timestamp unconditionally. -/
def updateRecords (P : String → Option TldResult)
    (E : String → Nat → String → Option EditResp)
    (ip : IP) (ts : Nat) (st : UpdaterState) : UpdaterState × List EditCall :=
  let r := updateLoop P E (ipString ip) (mapKeys st.recordMap) st.recordMap []
  ({ st with currentIP := ip, recordMap := r.1, lastSet := ts }, r.2)

/-- One iteration of the Run loop.  probe is the HTTP outcome of this
tick's CheckIP call; parseIP models net.ParseIP; trim models
strings.TrimSpace.  On a CheckIP error the code only logs: address stays
"", is parsed to the nil IP and flows on through the comparison, and
nextCheck is advanced just as on success. -/
def runTick (P : String → Option TldResult)
    (E : String → Nat → String → Option EditResp)
    (trim : String → String) (parseIP : String → IP)
    (probe : HTTPOutcome) (now tickTs : Nat)
    (st : UpdaterState) : UpdaterState × List EditCall :=
  if st.shutdown then ({ st with complete := true }, [])
  else if st.nextCheck ≤ now then
    let address :=
      match CheckIP trim probe with
      | Except.ok a => a
      | Except.error _ => ""
    let ip := parseIP (trim address)
    let r :=
      if ipEqual st.currentIP ip then (st, ([] : List EditCall))
      else updateRecords P E ip tickTs st
    ({ r.1 with nextCheck := now + st.interval }, r.2)
  else (st, [])

/-- One iteration of the Shutdown wait loop at a one-second tick: the
deadline (when the context has one) is compared against now before the
complete flag is consulted. -/
def shutdownTick (deadline : Option Nat) (now : Nat) (complete : Bool) :
    Option (Except String Unit) :=
  match deadline with
  | some dl =>
    if dl ≤ now then some (Except.error "shutdown timeout reached")
    else if complete then some (Except.ok ()) else none
  | none => if complete then some (Except.ok ()) else none

/-- The Shutdown wait loop over the sequence of per-tick observations of
(time.Now(), d.complete); none means the loop is still waiting when the
observations run out. -/
def shutdownLoop (deadline : Option Nat) : List (Nat × Bool) → Option (Except String Unit)
  | [] => none
  | (now, c) :: rest =>
    match shutdownTick deadline now c with
    | some r => some r
    | none => shutdownLoop deadline rest

/-- Shutdown: set the shutdown flag, then wait on the tick loop.  The body
runs only at tick events (time.Tick delivers its first tick one second
after the call), so the observation list starts at the first tick. -/
def Shutdown (deadline : Option Nat) (ticks : List (Nat × Bool)) (st : UpdaterState) :
    UpdaterState × Option (Except String Unit) :=
  ({ st with shutdown := true }, shutdownLoop deadline ticks)

/-! Concrete instantiations of the oracles and states, used to evaluate the
program at specific inputs.  Each oracle agrees with the real external
function on every input it is applied to (tld.Parse splits
"home.example.com" into ("home", "example", "com"), net.ParseIP returns the
nil IP on "" and on text that is not an IP literal, and ParseIP of both
"5.6.7.8" and "::ffff:1.2.3.4" yields the 16-byte IPv4-in-IPv6 form). -/

/-- The record the provider holds for home.example.com before the change. -/
def rec1 : DomainRecord := ⟨1, "A", "home", "1.2.3.4"⟩

/-- net.ParseIP "1.2.3.4" (16-byte IPv4-in-IPv6 form). -/
def ip12 : IP := [0, 0, 0, 0, 0, 0, 0, 0, 0, 0, 255, 255, 1, 2, 3, 4]

/-- net.ParseIP "5.6.7.8" (16-byte IPv4-in-IPv6 form). -/
def ip56 : IP := [0, 0, 0, 0, 0, 0, 0, 0, 0, 0, 255, 255, 5, 6, 7, 8]

/-- tld.Parse on the hostnames of the examples. -/
def pTld : String → Option TldResult := fun s =>
  if s = "home.example.com" then some ⟨"home", "example", "com"⟩
  else if s = "a.example.com" then some ⟨"a", "example", "com"⟩
  else if s = "example.com" then some ⟨"", "example", "com"⟩
  else none

/-- A provider whose every edit succeeds, echoing the edited Data back in
the returned record, as Domains.EditRecord does. -/
def eEdit : String → Nat → String → Option EditResp :=
  fun _ i d => some ⟨⟨i, "A", "home", d⟩, 200, true⟩

/-- A provider whose every edit fails at the transport level. -/
def eFail : String → Nat → String → Option EditResp := fun _ _ _ => none

/-- A provider lookup that finds rec1 for home.example.com and fails
(network error) for every other query. -/
def lHome : String → String → Option (List DomainRecord) := fun domain dnsName =>
  if domain = "example.com" ∧ dnsName = "home.example.com" then some [rec1] else none

/-- net.ParseIP restricted to inputs on which it returns the nil IP. -/
def pNone : String → IP := fun _ => []

/-- net.ParseIP on the probe bodies of the address-form example. -/
def pMapped : String → IP := fun s => if s = "::ffff:1.2.3.4" then ip12 else []

/-- A synchronized state tracking home.example.com, bound to rec1, with the
current IP 1.2.3.4 and a 60-unit interval, due for a probe. -/
def stBound : UpdaterState := ⟨[("home.example.com", rec1)], 60, 0, 0, ip12, false, false⟩

/-- A state whose single binding was never resolved by sync. -/
def stUnsyncHome : UpdaterState :=
  ⟨[("home.example.com", zeroRecord)], 60, 0, 0, ip12, false, false⟩

/-- A state with no observed IP yet (currentIP nil). -/
def stNil : UpdaterState := ⟨[("home.example.com", rec1)], 60, 0, 0, [], false, false⟩

/-- Two unresolved hosts awaiting synchronization. -/
def stSyncPair : UpdaterState :=
  ⟨[("a.example.com", zeroRecord), ("home.example.com", zeroRecord)], 60, 0, 0, [], false, false⟩

/-- time.ParseDuration on "5s". -/
def pd5s : String → Option Nat := fun s => if s = "5s" then some 5000000000 else none

/-! Association-list lemmas for the Go map model. -/

theorem mapLookup_mapUpdate_self (m : List (String × DomainRecord)) (k : String)
    (v : DomainRecord) : mapLookup (mapUpdate m k v) k = some v := by
  induction m with
  | nil => simp [mapUpdate, mapLookup]
  | cons p rest ih =>
    by_cases h : p.1 = k
    · simp [mapUpdate, h, mapLookup]
    · simp [mapUpdate, h, mapLookup, ih]

theorem mapLookup_mapUpdate_ne (m : List (String × DomainRecord)) (k k' : String)
    (v : DomainRecord) (h : k ≠ k') :
    mapLookup (mapUpdate m k v) k' = mapLookup m k' := by
  induction m with
  | nil => simp [mapUpdate, mapLookup, h]
  | cons p rest ih =>
    by_cases hp : p.1 = k
    · simp [mapUpdate, hp, mapLookup, h, hp ▸ h]
    · simp [mapUpdate, hp, mapLookup, ih]

theorem mapLookup_some_mem (m : List (String × DomainRecord)) (k : String)
    (v : DomainRecord) (h : mapLookup m k = some v) : k ∈ mapKeys m := by
  induction m with
  | nil => simp [mapLookup] at h
  | cons p rest ih =>
    by_cases hp : p.1 = k
    · simp [mapKeys, hp ▸ List.mem_cons_self p.1 (rest.map Prod.fst)]
      exact Or.inl hp.symm
    · simp [mapLookup, hp] at h
      simp [mapKeys]
      exact Or.inr (by simpa [mapKeys] using ih h)

/-! Per-host sync step lemmas: a host's step touches no other key, and on
its own key produces exactly its own outcome. -/

theorem syncStep_lookup_ne (P : String → Option TldResult)
    (L : String → String → Option (List DomainRecord))
    (m : List (String × DomainRecord)) (x y : String) (h : x ≠ y) :
    mapLookup (syncStep P L m x) y = mapLookup m y := by
  unfold syncStep
  cases syncFetch P L x with
  | none => rfl
  | some r => exact mapLookup_mapUpdate_ne m x y r h

theorem syncStep_lookup_self (P : String → Option TldResult)
    (L : String → String → Option (List DomainRecord))
    (m : List (String × DomainRecord)) (x : String) (rec : DomainRecord)
    (h : mapLookup m x = some rec) :
    mapLookup (syncStep P L m x) x = some (syncOutcome P L x rec) := by
  unfold syncStep syncOutcome
  cases syncFetch P L x with
  | none => exact h
  | some r => exact mapLookup_mapUpdate_self m x r

theorem foldl_syncStep_not_mem (P : String → Option TldResult)
    (L : String → String → Option (List DomainRecord)) :
    ∀ (names : List String) (m : List (String × DomainRecord)) (x : String),
      x ∉ names → mapLookup (names.foldl (syncStep P L) m) x = mapLookup m x := by
  intro names
  induction names with
  | nil => intro m x _; rfl
  | cons n rest ih =>
    intro m x hx
    rw [List.foldl_cons, ih _ x (fun h => hx (List.mem_cons_of_mem _ h))]
    exact syncStep_lookup_ne P L m n x (fun h => hx (h ▸ List.mem_cons_self n rest))

theorem foldl_syncStep_mem (P : String → Option TldResult)
    (L : String → String → Option (List DomainRecord)) :
    ∀ (names : List String) (m : List (String × DomainRecord)) (x : String)
      (rec : DomainRecord), names.Nodup → x ∈ names → mapLookup m x = some rec →
      mapLookup (names.foldl (syncStep P L) m) x = some (syncOutcome P L x rec) := by
  intro names
  induction names with
  | nil => intro m x rec _ hx _; exact absurd hx (List.not_mem_nil x)
  | cons n rest ih =>
    intro m x rec hnd hx hlk
    rw [List.foldl_cons]
    rcases List.mem_cons.mp hx with hxe | hxr
    · subst hxe
      rw [foldl_syncStep_not_mem P L rest _ x (List.nodup_cons.mp hnd).1]
      exact syncStep_lookup_self P L m x rec hlk
    · have hne : n ≠ x := fun h => (List.nodup_cons.mp hnd).1 (h ▸ hxr)
      exact ih _ x rec (List.nodup_cons.mp hnd).2 hxr
        (by rw [syncStep_lookup_ne P L m n x hne]; exact hlk)

/-- C1: the claim that an update pass never changes the key set of
recordMap fails on the code.  From the configured single host
home.example.com, synchronized against a provider holding rec1, one
successful update pass stores the post-edit record under the registrable
domain example.com, growing the key set from one key to two. -/
theorem C1_update_pass_adds_domain_key :
    mapKeys (NewDDNSUpdater ["home.example.com"] 60 0).recordMap = ["home.example.com"] ∧
    mapKeys (updateRecords pTld eEdit ip56 7
      (syncRecords pTld lHome (NewDDNSUpdater ["home.example.com"] 60 0)).1).1.recordMap
      = ["home.example.com", "example.com"] := ⟨rfl, by rfl⟩

/-- C2: the claim that a CheckIP failure skips the rest of the tick fails
on the code.  On a transport error at a due tick, nextCheck is advanced by
the full interval (0 to 70), and because the error also leaves address ""
that parses to the nil IP, an update pass runs: currentIP is overwritten
with the nil IP and an edit writing "<nil>" is issued. -/
theorem C2_probe_error_advances_and_mutates :
    stBound.nextCheck = 0 ∧
    (runTick pTld eEdit id pNone (HTTPOutcome.transportErr "dial timeout") 10 11 stBound).1.nextCheck = 70 ∧
    (runTick pTld eEdit id pNone (HTTPOutcome.transportErr "dial timeout") 10 11 stBound).1.currentIP = [] ∧
    (runTick pTld eEdit id pNone (HTTPOutcome.transportErr "dial timeout") 10 11 stBound).2
      = [⟨"example.com", 1, "<nil>"⟩] := ⟨rfl, rfl, rfl, rfl⟩

/-- C3 counterexample: a binding still holding the zero record (sync never
resolved it) is not skipped by the update pass; an edit request targeting
record ID 0 is issued for it. -/
theorem C3_unresolved_binding_gets_edit :
    (updateRecords pTld eFail ip56 7 stUnsyncHome).2 = [⟨"example.com", 0, "5.6.7.8"⟩] := rfl

/-- C3 amended: the update pass has no unresolved-binding check.  For any
single-host state whose binding's cached Data differs from the new IP's
string, the pass issues one edit request carrying the binding's record ID
(the zero ID included); when the provider call fails, the binding is left
unchanged, so the host is only fixed by a later successful sync. -/
theorem C3_amended_unresolved_edit_attempted (P : String → Option TldResult)
    (E : String → Nat → String → Option EditResp) (name : String) (rec : DomainRecord)
    (t : TldResult) (ip : IP) (ts : Nat) (st : UpdaterState)
    (hmap : st.recordMap = [(name, rec)]) (hP : P name = some t)
    (hdata : rec.data ≠ ipString ip)
    (hE : E (t.domain ++ "." ++ t.tld) rec.id (ipString ip) = none) :
    (updateRecords P E ip ts st).2 = [⟨t.domain ++ "." ++ t.tld, rec.id, ipString ip⟩] ∧
    (updateRecords P E ip ts st).1.recordMap = [(name, rec)] := by
  unfold updateRecords mapKeys
  rw [hmap]
  simp [updateLoop, mapLookup, hP, hdata, hE]

/-- C3 amended, witnessed at the unresolved host home.example.com with new
IP 5.6.7.8 and a failing provider. -/
theorem C3_amended_witness :
    (updateRecords pTld eFail ip56 7 stUnsyncHome).2 = [⟨"example.com", 0, "5.6.7.8"⟩] ∧
    (updateRecords pTld eFail ip56 7 stUnsyncHome).1.recordMap = [("home.example.com", zeroRecord)] := by
  have h := C3_amended_unresolved_edit_attempted pTld eFail "home.example.com" zeroRecord
    ⟨"home", "example", "com"⟩ ip56 7 stUnsyncHome rfl rfl (by decide) rfl
  exact h

/-- C4 counterexample: a 200 response whose body is not an IP literal is
not treated as a probe failure.  With a previously observed address, the
nil parse result compares unequal to currentIP, so an update pass runs:
currentIP is overwritten with the nil IP and an edit writing "<nil>" is
issued — a state change and provider write, where the claim requires
neither. -/
theorem C4_unparsable_body_runs_update_pass :
    stBound.currentIP = ip12 ∧
    (runTick pTld eEdit id pNone (HTTPOutcome.response 200 "not-an-ip") 10 11 stBound).2
      = [⟨"example.com", 1, "<nil>"⟩] ∧
    (runTick pTld eEdit id pNone (HTTPOutcome.response 200 "not-an-ip") 10 11 stBound).1.currentIP
      = [] := ⟨rfl, rfl, rfl⟩

/-- C4 amended: an unparsable body is not detected as a failure; ParseIP
returns the nil IP, which flows into the ordinary comparison.  When no
address has been observed yet (currentIP nil), the tick concludes
"unchanged": no update pass, no edits, and nextCheck advanced by the full
interval — so, the probe is retried an interval later, not treated as a
tick-scoped error. -/
theorem C4_amended_unparsable_nil_flow (P : String → Option TldResult)
    (E : String → Nat → String → Option EditResp) (trim : String → String)
    (parseIP : String → IP) (s : Nat) (body : String) (now ts : Nat) (st : UpdaterState)
    (hshut : st.shutdown = false) (hs : s < 400)
    (hparse : parseIP (trim (trim body)) = [])
    (hnil : st.currentIP = []) (hdue : st.nextCheck ≤ now) :
    runTick P E trim parseIP (HTTPOutcome.response s body) now ts st
      = ({ st with nextCheck := now + st.interval }, []) := by
  simp [runTick, CheckIP, hshut, hdue, Nat.not_le.mpr hs, hparse, hnil, ipEqual]

/-- C4 amended, witnessed on the body "garbage" at a fresh state. -/
theorem C4_amended_witness :
    runTick pTld eEdit id pNone (HTTPOutcome.response 200 "garbage") 10 11 stNil
      = ({ stNil with nextCheck := 70 }, []) := by
  have h := C4_amended_unparsable_nil_flow pTld eEdit id pNone 200 "garbage" 10 11 stNil rfl
    (by decide) rfl rfl (by decide)
  exact h

/-- C5 counterexample: the comparison the engine uses (net.IP.Equal) does
not hold the IPv4 form and the IPv6-mapped form of one address distinct:
the 4-byte form of 1.2.3.4 compares equal to its 16-byte mapped form even
though the byte lists differ; and at the engine level, a probe answering
the IPv6-mapped literal ::ffff:1.2.3.4 while currentIP came from the IPv4
literal 1.2.3.4 is decided "unchanged" (no update pass, no state change),
where the claim requires the forms to compare unequal. -/
theorem C5_mapped_forms_compare_equal :
    ipEqual [1, 2, 3, 4] ip12 = true ∧ ([1, 2, 3, 4] : IP) ≠ ip12 ∧
    (runTick pTld eEdit id pMapped (HTTPOutcome.response 200 "::ffff:1.2.3.4") 10 11 stBound).2 = [] ∧
    (runTick pTld eEdit id pMapped (HTTPOutcome.response 200 "::ffff:1.2.3.4") 10 11 stBound).1.currentIP
      = ip12 := ⟨by decide, by decide, rfl, rfl⟩

/-- C5 amended: the engine decides changed versus unchanged with
net.IP.Equal, which is byte-exact between representations of equal length
(all that arises from ParseIP, whose results are nil or 16 bytes), but
treats an IPv4 address and its IPv6-mapped representational form as equal
rather than distinct. -/
theorem C5_amended_equal_length_byte_exact (a b : IP) (h : a.length = b.length) :
    ipEqual a b = true ↔ a = b := by
  unfold ipEqual
  rw [if_pos h]
  simp

/-- C5 amended, witnessed on two distinct equal-length addresses. -/
theorem C5_amended_witness :
    (ipEqual [1, 2, 3, 4] [1, 2, 3, 5] = true ↔ ([1, 2, 3, 4] : IP) = [1, 2, 3, 5]) :=
  C5_amended_equal_length_byte_exact [1, 2, 3, 4] [1, 2, 3, 5] rfl

/-- C6: the claim that a second update pass with no intervening IP change
issues zero edits fails on the code.  After a first successful pass for
host home.example.com, the post-edit record was cached under the key
example.com, so the binding under the hostname key still holds the old
value; the second pass with the same IP re-issues the very same edit
instead of performing zero provider writes. -/
theorem C6_second_pass_reissues_edit :
    (updateRecords pTld eEdit ip56 7 stBound).2 = [⟨"example.com", 1, "5.6.7.8"⟩] ∧
    (updateRecords pTld eEdit ip56 8 (updateRecords pTld eEdit ip56 7 stBound).1).2
      = [⟨"example.com", 1, "5.6.7.8"⟩] := ⟨rfl, rfl⟩

/-- C7: syncRecords isolates per-host failures and never returns an error.
For any parse and lookup oracles and any state with distinct keys, the
returned error value is nil, and every tracked host ends with exactly its
own outcome: its old binding when its parse fails, its lookup fails, or
its lookup returns zero records, and the first returned record when its
lookup succeeds — independent of every other host's outcome. -/
theorem C7_syncAll_isolates_failures (P : String → Option TldResult)
    (L : String → String → Option (List DomainRecord)) (st : UpdaterState)
    (h : (mapKeys st.recordMap).Nodup) :
    (syncRecords P L st).2 = Except.ok () ∧
    ∀ x rec, mapLookup st.recordMap x = some rec →
      mapLookup (syncRecords P L st).1.recordMap x = some (syncOutcome P L x rec) := by
  refine ⟨rfl, fun x rec hx => ?_⟩
  exact foldl_syncStep_mem P L (mapKeys st.recordMap) st.recordMap x rec h
    (mapLookup_some_mem st.recordMap x rec hx) hx

/-- C7 witnessed on two hosts of which one lookup fails (network error)
and the other succeeds: the failing host keeps its zero binding, the
succeeding host is synchronized, and no error is returned. -/
theorem C7_witness :
    (syncRecords pTld lHome stSyncPair).2 = Except.ok () ∧
    mapLookup (syncRecords pTld lHome stSyncPair).1.recordMap "home.example.com" = some rec1 ∧
    mapLookup (syncRecords pTld lHome stSyncPair).1.recordMap "a.example.com" = some zeroRecord := by
  have h := C7_syncAll_isolates_failures pTld lHome stSyncPair (by decide)
  exact ⟨h.1, (h.2 "home.example.com" zeroRecord rfl).trans (by rfl),
    (h.2 "a.example.com" zeroRecord rfl).trans (by rfl)⟩

/-- C8 counterexample: an update pass in which every provider write fails
(the recordMap comes back unchanged) still overwrites lastSet with the
pass's timestamp, so lastSet does not record the most recent successful
write. -/
theorem C8_lastSet_advances_without_success :
    stBound.lastSet = 0 ∧
    (updateRecords pTld eFail ip56 42 stBound).1.lastSet = 42 ∧
    (updateRecords pTld eFail ip56 42 stBound).1.recordMap = stBound.recordMap := ⟨rfl, rfl, rfl⟩

/-- C8 amended: lastSet is stamped with the pass's tick timestamp
unconditionally at the end of every update pass, whether or not any
provider write succeeded — it records the most recent detected IP change,
not the most recent successful write. -/
theorem C8_amended_lastSet_stamped_every_pass (P : String → Option TldResult)
    (E : String → Nat → String → Option EditResp) (ip : IP) (ts : Nat) (st : UpdaterState) :
    (updateRecords P E ip ts st).1.lastSet = ts := rfl

/-- C9: the claim that an empty or absent DDNS_DOMAINS fails configuration
loading fails on the code.  With DDNS_DOMAINS unset (os.Getenv returns "")
and a valid interval, strings.Split yields the one-element slice [""], the
dead nil check does not fire, and loading succeeds with a config tracking
the single empty hostname. -/
theorem C9_empty_domains_loads_ok :
    LoadConfigFromEnv pd5s "tok" "5s" "" "" = Except.ok ⟨"tok", 5000000000, [""], false⟩ := by rfl

/-- C10: each iteration of the Shutdown wait loop (whose body runs only at
one-second tick events, the first one second after the call) compares the
context deadline against the current time before it consults the complete
flag; hence whenever the deadline has elapsed by the time an iteration
runs, Shutdown returns the shutdown-timeout error even when the run loop
has already set complete to true. -/
theorem C10_deadline_beats_complete (dl now : Nat) (c : Bool) (rest : List (Nat × Bool))
    (st : UpdaterState) (h : dl ≤ now) :
    Shutdown (some dl) ((now, c) :: rest) st
      = ({ st with shutdown := true }, some (Except.error "shutdown timeout reached")) := by
  simp [Shutdown, shutdownLoop, shutdownTick, h]

/-- C10 witnessed with the deadline already elapsed and complete true. -/
theorem C10_deadline_beats_complete_witness :
    Shutdown (some 5) [(7, true)] stBound
      = ({ stBound with shutdown := true }, some (Except.error "shutdown timeout reached")) :=
  C10_deadline_beats_complete 5 7 true [] stBound (by decide)
